import Mathlib

/-!
Shallow embedding of the web-shim rendering service (Rust sources under
`src/`), together with theorems settling the frozen claims about its
specification.  Pure functions of the source are translated into Lean
functions; the browser, filesystem and clock are passed in as explicit
parameters or oracles.  Machine integers are modelled as `Nat` with
explicit `% 2^w` where wrap-around matters.
-/

namespace WebShim

/-! ## 64-bit wrapping arithmetic and SipHash-1-3

`src/util/hash.rs` computes fingerprints with
`std::collections::hash_map::DefaultHasher`, which is SipHash-1-3 with
both keys zero.  The hash value depends only on the concatenation of the
bytes the `Hash` implementations write into the hasher, so we model the
hasher as SipHash-1-3 over an explicit byte list. -/

/-- The modulus of 64-bit wrapping arithmetic. -/
def M64 : Nat := 18446744073709551616

/-- Wrapping 64-bit addition. -/
def wadd (a b : Nat) : Nat := (a + b) % M64

/-- 64-bit left rotation (operands below `2^64`). -/
def rotl64 (x n : Nat) : Nat := ((x <<< n) % M64) ||| (x >>> (64 - n))

/-- The four 64-bit lanes of the SipHash state. -/
structure SipState where
  v0 : Nat
  v1 : Nat
  v2 : Nat
  v3 : Nat

/-- One SipHash round. -/
def sipRound (s : SipState) : SipState :=
  let v0 := wadd s.v0 s.v1
  let v1 := rotl64 s.v1 13
  let v1 := v1 ^^^ v0
  let v0 := rotl64 v0 32
  let v2 := wadd s.v2 s.v3
  let v3 := rotl64 s.v3 16
  let v3 := v3 ^^^ v2
  let v0 := wadd v0 v3
  let v3 := rotl64 v3 21
  let v3 := v3 ^^^ v0
  let v2 := wadd v2 v1
  let v1 := rotl64 v1 17
  let v1 := v1 ^^^ v2
  let v2 := rotl64 v2 32
  ⟨v0, v1, v2, v3⟩

/-- Absorb one 64-bit message word with the single compression round of
SipHash-1-3. -/
def sipCompress (s : SipState) (m : Nat) : SipState :=
  let s1 : SipState := ⟨s.v0, s.v1, s.v2, s.v3 ^^^ m⟩
  let s2 := sipRound s1
  ⟨s2.v0 ^^^ m, s2.v1, s2.v2, s2.v3⟩

/-- Little-endian value of a byte list. -/
def le64 : List Nat → Nat
  | [] => 0
  | b :: bs => b + 256 * le64 bs

/-- The full 8-byte little-endian words of a byte stream. -/
def sipBlocks : List Nat → List Nat
  | b0 :: b1 :: b2 :: b3 :: b4 :: b5 :: b6 :: b7 :: rest =>
      le64 [b0, b1, b2, b3, b4, b5, b6, b7] :: sipBlocks rest
  | _ => []

/-- The trailing bytes of a byte stream after all full 8-byte words. -/
def sipRemainder : List Nat → List Nat
  | _ :: _ :: _ :: _ :: _ :: _ :: _ :: _ :: rest => sipRemainder rest
  | bs => bs

/-- SipHash-1-3 with keys `(0, 0)`: the value `DefaultHasher::finish`
returns after the byte stream `bytes` has been written
(`calculate_hash` in `src/util/hash.rs`). -/
def siphash13 (bytes : List Nat) : Nat :=
  let init : SipState :=
    ⟨0x736f6d6570736575, 0x646f72616e646f6d, 0x6c7967656e657261, 0x7465646279746573⟩
  let s := (sipBlocks bytes).foldl sipCompress init
  let finalWord := le64 (sipRemainder bytes) ||| ((bytes.length % 256) <<< 56)
  let s := sipCompress s finalWord
  let s : SipState := ⟨s.v0, s.v1, s.v2 ^^^ 0xff, s.v3⟩
  let s := sipRound (sipRound (sipRound s))
  s.v0 ^^^ s.v1 ^^^ s.v2 ^^^ s.v3

/-! ## The byte streams written by Rust `Hash` implementations -/

/-- Little-endian encoding of `n` truncated to `w` bytes: what
`Hasher::write_uN` feeds the hasher for a `w`-byte integer. -/
def leBytes : Nat → Nat → List Nat
  | _, 0 => []
  | n, w + 1 => (n % 256) :: leBytes (n / 256) w

/-- Bytes written by `Hash for str`: the UTF-8 bytes followed by the
`0xff` terminator.  Every string hashed by this program is ASCII, so
each character is a single byte. -/
def strHashBytes (s : String) : List Nat :=
  s.data.map Char.toNat ++ [0xff]

/-- Bytes written by the derived `Hash` of `Option`: the 8-byte `isize`
discriminant (0 for `None`, 1 for `Some`), then the payload bytes. -/
def optionHashBytes {α : Type} (enc : α → List Nat) : Option α → List Nat
  | none => leBytes 0 8
  | some x => leBytes 1 8 ++ enc x

/-- Bytes written by `Hash for bool` (`write_u8(b as u8)`). -/
def boolHashBytes (b : Bool) : List Nat := [if b then 1 else 0]

/-- The chromiumoxide `CaptureScreenshotFormat` enum. -/
inductive CaptureScreenshotFormat
  | Jpeg
  | Png
  | Webp
deriving DecidableEq, Repr

/-- Variant index of `CaptureScreenshotFormat` in declaration order. -/
def CaptureScreenshotFormat.discr : CaptureScreenshotFormat → Nat
  | .Jpeg => 0
  | .Png => 1
  | .Webp => 2

/-- Bytes written by the derived `Hash` of `CaptureScreenshotFormat`:
the 8-byte `isize` discriminant. -/
def fmtHashBytes (f : CaptureScreenshotFormat) : List Nat :=
  leBytes f.discr 8

/-- Model of `url::Url`: the crate hashes a `Url` through its
serialization string, and `origin().ascii_serialization()` is the
ASCII form of its origin.  Both strings are carried explicitly. -/
structure UrlM where
  serialization : String
  originAscii : String
deriving DecidableEq, Repr

/-! ## Screenshot request fingerprint (`src/worker/screenshot.rs`) -/

/-- The query parameters of a screenshot request
(`ScreenshotRequestQSParams`), with `u16`/`u8`/`u64` fields as `Nat`. -/
structure ScreenshotRequestQSParams where
  url : UrlM
  format : Option CaptureScreenshotFormat
  quality : Option Nat
  width : Option Nat
  height : Option Nat
  scale : Option Nat
  ttl : Option Nat
  full_page : Option Bool
  omit_background : Option Bool
deriving DecidableEq, Repr

/-- The byte stream the derived `Hash` of `ScreenshotRequestQSParams`
writes: every field, in declaration order — `url`, `format`, `quality`,
`width`, `height`, `scale`, `ttl`, `full_page`, `omit_background`. -/
def ScreenshotRequestQSParams.hashBytes (r : ScreenshotRequestQSParams) : List Nat :=
  strHashBytes r.url.serialization ++
  optionHashBytes fmtHashBytes r.format ++
  optionHashBytes (fun n => leBytes n 2) r.quality ++
  optionHashBytes (fun n => leBytes n 2) r.width ++
  optionHashBytes (fun n => leBytes n 2) r.height ++
  optionHashBytes (fun n => leBytes n 1) r.scale ++
  optionHashBytes (fun n => leBytes n 8) r.ttl ++
  optionHashBytes boolHashBytes r.full_page ++
  optionHashBytes boolHashBytes r.omit_background

/-- Lowercase hex rendering of a `u64`, as Rust `format!` with the
`x` specifier (no padding). -/
def toHexLower (n : Nat) : String := String.mk (Nat.toDigits 16 n)

/-- `calculate_hash` of `src/util/hash.rs` instantiated at
`ScreenshotRequestQSParams`. -/
def ScreenshotRequestQSParams.calculate_hash (r : ScreenshotRequestQSParams) : Nat :=
  siphash13 r.hashBytes

/-- `calculate_hash_str` of `src/util/hash.rs` at `String`. -/
def calculate_hash_str (s : String) : String :=
  toHexLower (siphash13 (strHashBytes s))

/-- `ScreenshotRequestQSParams::filename`: origin hash, a slash, then
the request hash, both in lowercase hex. -/
def ScreenshotRequestQSParams.filename (r : ScreenshotRequestQSParams) : String :=
  calculate_hash_str r.url.originAscii ++ "/" ++ toHexLower r.calculate_hash

/-! ## SHA-1 (`sha1_hex` in `src/util/hash.rs`) -/

/-- The modulus of 32-bit wrapping arithmetic. -/
def M32 : Nat := 4294967296

/-- 32-bit left rotation (operands below `2^32`). -/
def rotl32 (x n : Nat) : Nat := ((x <<< n) % M32) ||| (x >>> (32 - n))

/-- Big-endian byte encoding of `n` in `w` bytes. -/
def beBytes (n w : Nat) : List Nat := (leBytes n w).reverse

/-- SHA-1 padding: `0x80`, zeros to 56 mod 64, then the 64-bit
big-endian bit length. -/
def sha1Pad (msg : List Nat) : List Nat :=
  let len := msg.length
  let zeros := (64 + 56 - ((len + 1) % 64)) % 64
  msg ++ [0x80] ++ List.replicate zeros 0 ++ beBytes (8 * len) 8

/-- Big-endian 32-bit words of a byte stream (full 4-byte groups). -/
def beWords : List Nat → List Nat
  | b0 :: b1 :: b2 :: b3 :: rest =>
      (((b0 * 256 + b1) * 256 + b2) * 256 + b3) :: beWords rest
  | _ => []

/-- Split a word list into 16-word blocks, with an explicit fuel
argument for termination (call with `fuel = ws.length`). -/
def wordBlocks : Nat → List Nat → List (List Nat)
  | 0, _ => []
  | _, [] => []
  | fuel + 1, ws => ws.take 16 :: wordBlocks fuel (ws.drop 16)

/-- Extend a 16-word SHA-1 block to the 80-word message schedule.  The
accumulator is kept most-recent-first. -/
def sha1Schedule (block : List Nat) : List Nat :=
  ((List.range 64).foldl
    (fun acc _ =>
      rotl32 ((acc.getD 2 0) ^^^ (acc.getD 7 0) ^^^ (acc.getD 13 0) ^^^ (acc.getD 15 0)) 1
        :: acc)
    block.reverse).reverse

/-- The five 32-bit registers of the SHA-1 state. -/
structure Sha1State where
  a : Nat
  b : Nat
  c : Nat
  d : Nat
  e : Nat

/-- The SHA-1 round function for round `i`. -/
def sha1F (i b c d : Nat) : Nat :=
  if i < 20 then (b &&& c) ||| ((b ^^^ 0xffffffff) &&& d)
  else if i < 40 then b ^^^ c ^^^ d
  else if i < 60 then (b &&& c) ||| (b &&& d) ||| (c &&& d)
  else b ^^^ c ^^^ d

/-- The SHA-1 round constant for round `i`. -/
def sha1K (i : Nat) : Nat :=
  if i < 20 then 0x5A827999
  else if i < 40 then 0x6ED9EBA1
  else if i < 60 then 0x8F1BBCDC
  else 0xCA62C1D6

/-- One SHA-1 round applied to round index `i` and schedule word `w`. -/
def sha1Round (st : Sha1State) (iw : Nat × Nat) : Sha1State :=
  let temp := (rotl32 st.a 5 + sha1F iw.1 st.b st.c st.d + st.e + sha1K iw.1 + iw.2) % M32
  ⟨temp, st.a, rotl32 st.b 30, st.c, st.d⟩

/-- Compress one 16-word block into the running SHA-1 state. -/
def sha1Block (h : Sha1State) (block : List Nat) : Sha1State :=
  let st := ((List.range 80).zip (sha1Schedule block)).foldl sha1Round h
  ⟨wadd32 h.a st.a, wadd32 h.b st.b, wadd32 h.c st.c, wadd32 h.d st.d, wadd32 h.e st.e⟩
where
  wadd32 (x y : Nat) : Nat := (x + y) % M32

/-- The SHA-1 digest of a byte stream, as five 32-bit words. -/
def sha1Digest (msg : List Nat) : Sha1State :=
  let padded := sha1Pad msg
  let ws := beWords padded
  (wordBlocks ws.length ws).foldl sha1Block
    ⟨0x67452301, 0xEFCDAB89, 0x98BADCFE, 0x10325476, 0xC3D2E1F0⟩

/-- Lowercase hex of a 32-bit word, zero-padded to 8 characters. -/
def hexPad8 (n : Nat) : String :=
  let s := toHexLower n
  String.mk (List.replicate (8 - s.length) '0') ++ s

/-- Raw ASCII bytes of a string (Rust `str::as_bytes`; every string
fed to `sha1_hex` by this program is ASCII). -/
def strBytes (s : String) : List Nat := s.data.map Char.toNat

/-- `sha1_hex` of `src/util/hash.rs`: the 40-character lowercase hex
SHA-1 digest of a byte stream. -/
def sha1_hex (data : List Nat) : String :=
  let d := sha1Digest data
  hexPad8 d.a ++ hexPad8 d.b ++ hexPad8 d.c ++ hexPad8 d.d ++ hexPad8 d.e

/-! ## Presigned URL codec (`src/util/signature_v4.rs`)

The clock call `now()` (from `src/util/time.rs`, whose body is not
among the sources) is passed everywhere as an explicit unix-seconds
parameter; the `serde_qs` query-string round-trip is external, so a
query string is modelled by the record it parses into (`none` when the
query does not parse as a `PresignedQs`). -/

/-- The `PresignedUrl` struct: path plus the four signed metadata
fields, with `u64` fields as `Nat`. -/
structure PresignedUrl where
  path : String
  x_amz_algorithm : String
  x_amz_credential : String
  x_amz_date : Nat
  x_amz_expires : Nat
deriving DecidableEq, Repr

/-- The `PresignedQs` struct: the five query parameters of a presigned
URL. -/
structure PresignedQs where
  x_amz_algorithm : String
  x_amz_credential : String
  x_amz_date : Nat
  x_amz_expires : Nat
  x_amz_signature : String
deriving DecidableEq, Repr

/-- String escaping of `serde_json` for the strings this program signs
(quote and backslash; no control characters occur). -/
def jsonEscape (s : String) : String :=
  s.data.foldl
    (fun acc c =>
      if c = '\\' then acc ++ "\\\\"
      else if c = '\"' then acc ++ "\\\""
      else acc.push c)
    ""

/-- `serde_json::to_string` of a `PresignedUrl`: fields in declaration
order. -/
def PresignedUrl.json (u : PresignedUrl) : String :=
  "\x7b\"path\":\"" ++ jsonEscape u.path ++
  "\",\"x_amz_algorithm\":\"" ++ jsonEscape u.x_amz_algorithm ++
  "\",\"x_amz_credential\":\"" ++ jsonEscape u.x_amz_credential ++
  "\",\"x_amz_date\":" ++ toString u.x_amz_date ++
  ",\"x_amz_expires\":" ++ toString u.x_amz_expires ++ "\x7d"

/-- `PresignedUrl::sign`: the SHA-1 hex digest of the canonical JSON. -/
def PresignedUrl.sign (u : PresignedUrl) : String :=
  sha1_hex (strBytes u.json)

/-- `PresignedUrl::new`: algorithm `AWS4-HMAC-SHA256`, credential the
access key, date the current unix time, expiry 3600 seconds. -/
def PresignedUrl.new (path access_key_id : String) (now : Nat) : PresignedUrl :=
  ⟨path, "AWS4-HMAC-SHA256", access_key_id, now, 3600⟩

/-- `PresignedUrl::to_qs`: the five query parameters, the signature
computed over the five signed fields. -/
def PresignedUrl.to_qs (u : PresignedUrl) : PresignedQs :=
  ⟨u.x_amz_algorithm, u.x_amz_credential, u.x_amz_date, u.x_amz_expires, u.sign⟩

/-- The error type of `from_req`; the `msg` values mirror the source:
`invalid query` (malformed), `WTF` (not yet valid), `timeout`
(expired), `invalid signature`. -/
structure ParsePresignedUrlError where
  msg : String
deriving DecidableEq, Repr

/-- `PresignedUrl::from_req`: parse the query, reject when the current
time precedes `X-Amz-Date`, reject when `X-Amz-Date + X-Amz-Expires`
(64-bit wrapping sum) precedes the current time, rebuild the signed
record from the request path and the query fields, compare signatures,
and return the credential on success. -/
def from_req (path : String) (query : Option PresignedQs) (ts_now : Nat) :
    Except ParsePresignedUrlError String :=
  match query with
  | none => .error ⟨"invalid query"⟩
  | some q =>
    if ts_now < q.x_amz_date then .error ⟨"WTF"⟩
    else if (q.x_amz_date + q.x_amz_expires) % M64 < ts_now then .error ⟨"timeout"⟩
    else
      let signed_url : PresignedUrl :=
        ⟨path, q.x_amz_algorithm, q.x_amz_credential, q.x_amz_date, q.x_amz_expires⟩
      if signed_url.sign = q.x_amz_signature then .ok q.x_amz_credential
      else .error ⟨"invalid signature"⟩

/-! ## Access-control middleware (`src/middleware/access_control.rs`) -/

/-- Outcome of the static-route middleware: forward to the file server
or answer 401. -/
inductive AccessDecision
  | pass
  | unauthorized401
deriving DecidableEq, Repr

/-- `LfsAccessControlMiddleware::handle`: admit exactly when `from_req`
succeeds; otherwise answer 401.  The middleware carries the configured
bucket `access_tokens` but its `handle` never consults them. -/
def lfs_handle (access_tokens : List String) (path : String)
    (query : Option PresignedQs) (ts_now : Nat) : AccessDecision :=
  match from_req path query ts_now with
  | .ok _ => .pass
  | .error _ => .unauthorized401

/-! ## Rate limiting (`src/middleware/rate_limiting.rs`)

The limiter state machine (governor's keyed GCRA) is external to the
repository; it is embedded from the library's documented algorithm so
that the repository's quota constructors can be evaluated. -/

/-- The `RateLimitingConfig` tagged union (`u32` field as `Nat`). -/
inductive RateLimitingConfig
  | QPH (times : Nat)
  | QPM (times : Nat)
  | QPS (times : Nat)
deriving DecidableEq, Repr

/-- governor `Quota`: replenish interval in nanoseconds and burst
capacity. -/
structure Quota where
  replenish_1_per_nanos : Nat
  max_burst : Nat
deriving DecidableEq, Repr

/-- governor `Quota::per_second(n)`: one cell per `1s / n`. -/
def Quota.per_second (times : Nat) : Quota :=
  ⟨1000000000 / times, times⟩

/-- governor `Quota::per_minute(n)`: one cell per `60s / n`. -/
def Quota.per_minute (times : Nat) : Quota :=
  ⟨60000000000 / times, times⟩

/-- A quota with true per-hour scaling, following the spec's words
(`implementers MUST use true hour scaling for QPH`): one cell per
`3600s / n`.  Named for comparison with the source's `per_hour`. -/
def Quota.per_hour_spec (times : Nat) : Quota :=
  ⟨3600000000000 / times, times⟩

/-- `Fns::per_second` of the source: a limiter with `Quota::per_second`. -/
def Fns.per_second (times : Nat) : Quota := Quota.per_second times

/-- `Fns::per_minute` of the source: a limiter with `Quota::per_minute`. -/
def Fns.per_minute (times : Nat) : Quota := Quota.per_minute times

/-- `Fns::per_hour` of the source, translated verbatim: its body calls
`Quota::per_minute(times)`, not a per-hour constructor. -/
def Fns.per_hour (times : Nat) : Quota := Quota.per_minute times

/-- The quota a limiter is constructed with from a
`RateLimitingConfig` (`From<&RateLimitingConfig>` in the source). -/
def RateLimitingConfig.quota : RateLimitingConfig → Quota
  | .QPS t => Fns.per_second t
  | .QPM t => Fns.per_minute t
  | .QPH t => Fns.per_hour t

/-- governor's GCRA parameters: emission interval `t` and burst
tolerance `tau = t * max_burst`, in nanoseconds. -/
structure Gcra where
  t : Nat
  tau : Nat
deriving DecidableEq, Repr

/-- Build the GCRA parameters of a quota, as `governor::Gcra::new`. -/
def Gcra.ofQuota (q : Quota) : Gcra :=
  ⟨q.replenish_1_per_nanos, q.replenish_1_per_nanos * q.max_burst⟩

/-- One GCRA admission test for a key whose theoretical arrival time is
`tat`, at arrival instant `t0` (nanoseconds since the limiter start):
admit unless `t0` precedes `tat + t - tau` (saturating), and on
admission advance `tat` to `max tat t0 + t`. -/
def gcraStep (g : Gcra) (tat t0 : Nat) : Bool × Nat :=
  if t0 < (tat + g.t) - g.tau then (false, tat)
  else (true, max tat t0 + g.t)

/-- Admission decisions for a single key over a list of arrival
instants, from a cold limiter. -/
def gcraAdmissions (g : Gcra) (arrivals : List Nat) : List Bool :=
  (arrivals.foldl
    (fun acc t0 =>
      let r := gcraStep g acc.2 t0
      (acc.1 ++ [r.1], r.2))
    (([] : List Bool), 0)).1

/-- Number of admitted requests over a list of arrival instants. -/
def gcraAdmittedCount (g : Gcra) (arrivals : List Nat) : Nat :=
  (gcraAdmissions g arrivals).count true

/-! ## PDF render parameters (`src/worker/pdf.rs`) -/

/-- The CDP `PrintToPdfParams`, restricted to the two fields either
construction site in the source sets (`print_background` and `scale`);
the thirteen remaining fields are `None` at both sites.  The `f64`
scale is modelled as a rational. -/
structure PrintToPdfParams where
  print_background : Option Bool
  scale : Option ℚ
deriving DecidableEq, Repr

/-- `default_scale` in `src/worker/pdf.rs`: `Some(5)`. -/
def pdf_default_scale : Option Nat := some 5

/-- The `PrintToPdfParams` the `pdf` handler enqueues with the task
(`src/worker/pdf.rs` lines 182-200): `print_background` is the
request's `omit_background` passed through unchanged, and `scale` is
`(request scale, or the bucket default) / 10.0`. -/
def pdfEnqueuedCdpParams (scale : Option Nat) (omit_background : Option Bool)
    (default_scale : Nat) : PrintToPdfParams :=
  ⟨omit_background, some ((scale.getD default_scale : ℚ) / 10)⟩

/-- The `PrintToPdfParams` the PDF worker actually passes to
`page.pdf` (`src/worker/pdf.rs` lines 97-116): a fresh literal with
`print_background: None` and `scale: Some(1.0)`.  The worker's
`cdp_params` argument is never used. -/
def pdfWorkerPdfCall (cdp_params : PrintToPdfParams) : PrintToPdfParams :=
  ⟨none, some 1⟩

/-! ## Cache probes of the two handlers -/

/-- Outcome of a handler's cache probe: redirect to a signed URL,
fall through to enqueueing a render task, or panic. -/
inductive CacheAction
  | redirect
  | enqueue
  | panicked
deriving DecidableEq, Repr

/-- Bound above which the `pdf` handler's
`TimeDelta::new(ttl as i64, 0).unwrap()` panics (chrono's maximum
whole seconds, `i64::MAX / 1000`); the `u64 -> i64` conversion panics
even earlier for `ttl >= 2^63`. -/
def timeDeltaMaxSecs : Nat := 9223372036854775

/-- The last whole-second unix timestamp chrono can represent:
`NaiveDate::MAX` is 262143-12-31 (`MAX_YEAR = i32::MAX >> 13`), so
this is 262143-12-31T23:59:59.  The `pdf` handler's
`checked_add_signed(..).unwrap()` panics when `last_modified + ttl`
lands beyond it. -/
def chronoMaxTimestamp : Nat := 8210298412799

/-- The `pdf` handler's cache probe (`src/worker/pdf.rs` lines
150-155): redirect exactly when the blob exists, `ttl` is present, and
`last_modified + ttl >= now`; otherwise fall through and enqueue.  The
probe panics when `ttl` exceeds chrono's `TimeDelta` range
(`TimeDelta::new(..).unwrap()`, with the `u64 -> i64` conversion
panicking even earlier) or when `last_modified + ttl` overflows
chrono's calendar (`checked_add_signed(..).unwrap()`). -/
def pdfCacheAction (is_exist : Bool) (ttl : Option Nat)
    (last_modified now : Nat) : CacheAction :=
  if is_exist then
    match ttl with
    | some t =>
      if timeDeltaMaxSecs < t then .panicked
      else if chronoMaxTimestamp < last_modified + t then .panicked
      else if now ≤ last_modified + t then .redirect
      else .enqueue
    | none => .enqueue
  else .enqueue

/-- The `screenshot` handler's cache probe over one extension list
(`src/worker/screenshot.rs` lines 185-209): for each extension, stat
`<filename>.<ext>` relative to the working directory (`probe` returns
its mtime when the file exists); with `_ttl = ttl.unwrap_or(300)`,
redirect when `_ttl > 0` and `now - mtime < _ttl`; panic when the
mtime lies in the future (`duration_since(..).unwrap()`); otherwise
try the next extension, and enqueue after the last. -/
def screenshotCacheGo (probe : String → Option Nat) (filename : String)
    (ttl : Option Nat) (now : Nat) : List String → CacheAction
  | [] => .enqueue
  | ext :: rest =>
    match probe (filename ++ "." ++ ext) with
    | some mtime =>
      let t := ttl.getD 300
      if 0 < t then
        if now < mtime then .panicked
        else if now - mtime < t then .redirect
        else screenshotCacheGo probe filename ttl now rest
      else screenshotCacheGo probe filename ttl now rest
    | none => screenshotCacheGo probe filename ttl now rest

/-- The `screenshot` handler's cache probe over its extension list
`["png", "jpg", "webp"]`. -/
def screenshotCacheAction (probe : String → Option Nat) (filename : String)
    (ttl : Option Nat) (now : Nat) : CacheAction :=
  screenshotCacheGo probe filename ttl now ["png", "jpg", "webp"]

/-- The redirect condition claimed by the spec for every render
request: artifact present, `ttl` present, and `now ≤ last_modified +
ttl`. -/
def specRedirectCond (is_exist : Bool) (ttl : Option Nat)
    (last_modified now : Nat) : Prop :=
  is_exist = true ∧ ∃ t, ttl = some t ∧ now ≤ last_modified + t

/-! ## The screenshot worker loop (`src/worker/screenshot.rs` lines 49-166)

One loop iteration is translated as a function of the outcomes of the
page operations (navigation, metrics override, capture, blob write),
returning the externally visible events of the iteration and whether
the loop continues, breaks, or the task panics on an `unwrap`. -/

/-- Result of `page.goto` as the worker's `match` distinguishes it. -/
inductive GotoResult
  | ok
  | timeout
  | otherErr
deriving DecidableEq, Repr

/-- Externally visible events of a worker iteration. -/
inductive WorkerEvent
  | sentReplace (id : Nat)
  | repliedSome
  | repliedNone
  | blankReset
deriving DecidableEq, Repr

/-- How a loop iteration ends. -/
inductive IterEnd
  | continueLoop
  | breakLoop
  | panicked
deriving DecidableEq, Repr

/-- One iteration of the screenshot worker after it received a task:
on a navigation timeout it sends its id to the supervisor's replace
channel and falls to the `break` after the `if`; on any other
navigation error it only logs and falls to the same `break` (the
one-shot sender is dropped unsent); on success it overrides device
metrics (`unwrap`), captures, writes (`unwrap`), replies, resets to
`about:blank` and `continue`s. -/
def screenshotWorkerIteration (id : Nat) (goto : GotoResult)
    (metricsOk captureOk writeOk : Bool) : List WorkerEvent × IterEnd :=
  match goto with
  | .timeout => ([.sentReplace id], .breakLoop)
  | .otherErr => ([], .breakLoop)
  | .ok =>
    if metricsOk then
      if captureOk then
        if writeOk then ([.repliedSome, .blankReset], .continueLoop)
        else ([], .panicked)
      else ([.repliedNone, .blankReset], .continueLoop)
    else ([], .panicked)

/-- What the handler answers from the awaited one-shot reply
(`src/worker/screenshot.rs` lines 270-275, same shape in `pdf`):
`302` on `Ok(Some(url))`, `500` both on `Ok(None)` and on a dropped
sender (`rx.await` yields `Err`), the latter modelled by `none`. -/
def handlerStatusOfReply : Option (Option String) → Nat
  | some (some _) => 302
  | some none => 500
  | none => 500

/-! ## The PDF worker loop (`src/worker/pdf.rs` lines 50-134)

The loop body is `loop { if let Some(task) = recv { .. } }` with no
`break`; the `ptx.try_send(id)` and `page.close()` after the loop are
behind it.  The body `unwrap`s navigation, capture and the final blank
navigation, so any of those failures panics the task. -/

/-- Oracle for one PDF worker iteration: whether a task arrived and
which page operations fail (each failure is an `unwrap` panic). -/
structure PdfIterOracle where
  taskArrived : Bool
  gotoFails : Bool
  pdfFails : Bool
  finalGotoFails : Bool
deriving DecidableEq, Repr

/-- Phase of the PDF worker task: still looping, or dead from a
panicked `unwrap`.  The loop has no exit, so no third phase exists. -/
inductive PdfWorkerPhase
  | looping
  | panicked
deriving DecidableEq, Repr

/-- One iteration of the PDF worker loop: without a task the `if let`
falls through and the loop repeats; with a task, `worker` navigates
(`unwrap`), sleeps, renders the PDF (`unwrap`), writes (result
ignored), signs, navigates to `about:blank` (`unwrap`) and returns the
URL, which the loop sends on the one-shot.  `worker` never constructs
an `Err`, so the `tx.send(None)` arm is dead; each `unwrap` failure
panics before any reply is sent. -/
def pdfWorkerIteration (o : PdfIterOracle) : List WorkerEvent × PdfWorkerPhase :=
  if o.taskArrived then
    if o.gotoFails then ([], .panicked)
    else if o.pdfFails then ([], .panicked)
    else if o.finalGotoFails then ([], .panicked)
    else ([.repliedSome], .looping)
  else ([], .looping)

/-- Run the PDF worker over a list of iteration oracles from its
initial looping phase; a panicked task performs nothing further. -/
def pdfWorkerRun : List PdfIterOracle → List WorkerEvent × PdfWorkerPhase
  | [] => ([], .looping)
  | o :: os =>
    let r := pdfWorkerIteration o
    match r.2 with
    | .panicked => (r.1, .panicked)
    | .looping =>
      let rest := pdfWorkerRun os
      (r.1 ++ rest.1, rest.2)

/-- The worker ids a trace sends on the supervisor's replace channel;
the supervisor (`src/main.rs` lines 72-80) spawns one replacement per
id received, so an empty list means no replacement is ever spawned. -/
def replaceIdsSent (events : List WorkerEvent) : List Nat :=
  events.filterMap fun e =>
    match e with
    | .sentReplace id => some id
    | _ => none

/-! ## Worker pool startup and replacement (`src/main.rs` lines 64-81) -/

/-- The class of a render worker. -/
inductive WorkerClass
  | screenshot
  | pdf
deriving DecidableEq, Repr

/-- The workers the supervisor task spawns at startup: one screenshot
worker per id in `0..pool_size` (the range runs over `usize` after
`.into()`), then a single PDF worker whose id is
`SERVER_CONFIG.browser.pool_size + 1` computed in `u8`
(`pool_size: u8` in the config): at `pool_size = 255` the sum wraps to
0 in release builds (debug builds panic on the overflow), hence the
`% 256`. -/
def spawnWorkers (pool_size : Nat) : List (Nat × WorkerClass) :=
  ((List.range pool_size).map fun id => (id, WorkerClass.screenshot)) ++
    [((pool_size + 1) % 256, WorkerClass.pdf)]

/-- The class of the replacement worker spawned for a dead worker's id
received on the replace channel: PDF when `id > pool_size`, screenshot
otherwise. -/
def replaceClass (pool_size id : Nat) : WorkerClass :=
  if pool_size < id then .pdf else .screenshot

/-! ## Artifact paths (`src/config.rs` lines 202-206,
`src/worker/screenshot.rs` lines 116-121 and 185-196) -/

/-- `default_buckets_dal`: the default bucket's blob operator is a
filesystem backend rooted at `./static`. -/
def default_buckets_dal_root : String := "./static"

/-- Resolution of a relative path against the process working
directory. -/
def resolveCwd (cwd rel : String) : String := cwd ++ "/" ++ rel

/-- The relative path the `screenshot` handler's cache probe stats:
`Path::new(&file_name)` for `file_name = <filename>.<ext>`, resolved
against the working directory. -/
def probeRelPath (filename ext : String) : String :=
  filename ++ "." ++ ext

/-- The relative path at which the screenshot worker's blob write
lands: `op.write(&file_name, ..)` on the bucket operator rooted at
`./static`, i.e. `static/<filename>.<ext>` under the working
directory. -/
def workerWriteRelPath (filename ext : String) : String :=
  "static/" ++ filename ++ "." ++ ext

/-! ## Concrete fixtures used by witnesses and counterexamples -/

/-- A concrete screenshot request: `url=https://example.com/`,
`format=png`, `quality=40`, `width=800`, `height=600`, `scale=10`,
`ttl=60`, `full_page=false`, `omit_background=false`. -/
def sampleScreenshotRequest : ScreenshotRequestQSParams :=
  ⟨⟨"https://example.com/", "https://example.com"⟩, some .Png, some 40, some 800,
    some 600, some 10, some 60, some false, some false⟩

/-- A probe describing a filesystem whose only matching file is
`f.png`, last modified at unix second 100. -/
def probeOnePng : String → Option Nat :=
  fun s => if s = "f.png" then some 100 else none

/-- A presigned query forged without knowing any bucket token: the
credential is `attacker` and the signature is simply the unkeyed SHA-1
digest `from_req` recomputes. -/
def forgedQs : PresignedQs :=
  ⟨"AWS4-HMAC-SHA256", "attacker", 1000, 3600,
    (PresignedUrl.mk "/static/x" "AWS4-HMAC-SHA256" "attacker" 1000 3600).sign⟩

/-! ## Claims -/

/-- C1: the claim says every PDF render task asks the browser for a
PDF with `scale = request.scale / 10.0` and
`print_background = !omit_background`.  The code diverges twice: the
handler enqueues `print_background = omit_background` (unnegated), and
the worker discards the enqueued parameters altogether, calling
`page.pdf` with the literal `scale = Some(1.0)`,
`print_background = None`.  Evaluated at the request
`scale=20&omit_background=true` (bucket default scale 5): the browser
is asked for `scale = 1`, not `20/10 = 2`, and `print_background =
None`, not `Some(false)`; even the enqueued value is `Some(true)`. -/
theorem c1_pdf_params_ignored :
    pdfWorkerPdfCall (pdfEnqueuedCdpParams (some 20) (some true) 5) =
      ⟨none, some 1⟩ ∧
    (pdfWorkerPdfCall (pdfEnqueuedCdpParams (some 20) (some true) 5)).scale ≠
      some ((20 : ℚ) / 10) ∧
    (pdfWorkerPdfCall (pdfEnqueuedCdpParams (some 20) (some true) 5)).print_background ≠
      some false ∧
    (pdfEnqueuedCdpParams (some 20) (some true) 5).print_background = some true := by
  refine ⟨rfl, ?_, by simp [pdfWorkerPdfCall], rfl⟩
  simp only [pdfWorkerPdfCall, Option.some.injEq, ne_eq]
  norm_num

set_option maxRecDepth 100000 in
/-- C2 counterexample: the claim says mutating `ttl` never changes the
derived ArtifactKey, but `ScreenshotRequestQSParams` derives `Hash`
over all of its fields, `ttl` included: dropping `ttl=60` from the
sample request changes the filename. -/
theorem c2_ttl_changes_key :
    ({ sampleScreenshotRequest with ttl := none } :
        ScreenshotRequestQSParams).filename ≠
      sampleScreenshotRequest.filename := by decide

set_option maxRecDepth 100000 in
/-- C2 amended: the request hash covers every rendering-relevant field
— mutating any of url, format, quality, width, height, scale,
full_page, omit_background changes the key — but it also covers `ttl`:
both changing `ttl` to 61 and omitting it change the key as well. -/
theorem c2_key_sensitivity :
    ({ sampleScreenshotRequest with
        url := ⟨"https://example.org/", "https://example.org"⟩ } :
        ScreenshotRequestQSParams).filename ≠ sampleScreenshotRequest.filename ∧
    ({ sampleScreenshotRequest with format := some .Jpeg } :
        ScreenshotRequestQSParams).filename ≠ sampleScreenshotRequest.filename ∧
    ({ sampleScreenshotRequest with quality := some 41 } :
        ScreenshotRequestQSParams).filename ≠ sampleScreenshotRequest.filename ∧
    ({ sampleScreenshotRequest with width := some 801 } :
        ScreenshotRequestQSParams).filename ≠ sampleScreenshotRequest.filename ∧
    ({ sampleScreenshotRequest with height := some 601 } :
        ScreenshotRequestQSParams).filename ≠ sampleScreenshotRequest.filename ∧
    ({ sampleScreenshotRequest with scale := some 11 } :
        ScreenshotRequestQSParams).filename ≠ sampleScreenshotRequest.filename ∧
    ({ sampleScreenshotRequest with full_page := some true } :
        ScreenshotRequestQSParams).filename ≠ sampleScreenshotRequest.filename ∧
    ({ sampleScreenshotRequest with omit_background := some true } :
        ScreenshotRequestQSParams).filename ≠ sampleScreenshotRequest.filename ∧
    ({ sampleScreenshotRequest with ttl := some 61 } :
        ScreenshotRequestQSParams).filename ≠ sampleScreenshotRequest.filename := by
  refine ⟨?_, ?_, ?_, ?_, ?_, ?_, ?_, ?_, ?_⟩ <;> decide

/-- C3: the claim (and the spec, which flags the source as buggy here)
requires `QPH(n)` to admit at most `n` per key per hour.  `Fns::per_hour`
calls `Quota::per_minute`, so a limiter built from `QPH(1)` admits two
requests 61 seconds apart — both inside the same hour — while a true
per-hour quota admits only the first. -/
theorem c3_qph_admits_per_minute :
    RateLimitingConfig.quota (.QPH 1) = Quota.per_minute 1 ∧
    gcraAdmittedCount (Gcra.ofQuota (RateLimitingConfig.quota (.QPH 1)))
        [0, 61000000000] = 2 ∧
    gcraAdmittedCount (Gcra.ofQuota (Quota.per_hour_spec 1))
        [0, 61000000000] = 1 := by
  refine ⟨rfl, ?_, ?_⟩ <;> decide

/-- C4 counterexample: the claim says a navigation failure other than
a timeout makes the worker reply `None` and continue its loop.  In the
iteration translated from the source, a non-timeout navigation error
produces no reply event at all and ends the iteration with `break`. -/
theorem c4_nav_error_no_reply_and_break :
    (screenshotWorkerIteration 0 .otherErr true true true).1.contains .repliedNone
      = false ∧
    (screenshotWorkerIteration 0 .otherErr true true true).2 ≠ .continueLoop := by
  decide

/-- C4 amended: on a navigation error other than timeout the worker
logs, sends nothing — the one-shot sender is dropped, which the handler
observes as a cancelled channel and still answers 500 — and breaks out
of its loop without signalling the supervisor, so it does not serve
further tasks. -/
theorem c4_nav_error_behavior :
    ∀ (id : Nat) (m c w : Bool),
      screenshotWorkerIteration id .otherErr m c w = ([], .breakLoop) ∧
      handlerStatusOfReply none = 500 :=
  fun _ _ _ _ => ⟨rfl, rfl⟩

/-- The screenshot cache loop redirects exactly when the effective ttl
(`ttl` or the 300-second default) is positive and some probed
extension has a file strictly younger than it; stated for filesystems
with no future mtimes, where the `duration_since` unwrap cannot
panic. -/
theorem screenshotCacheGo_redirect_iff (probe : String → Option Nat) (fn : String)
    (ttl : Option Nat) (now : Nat) (exts : List String)
    (h : ∀ s m, probe s = some m → m ≤ now) :
    screenshotCacheGo probe fn ttl now exts = .redirect ↔
      0 < ttl.getD 300 ∧ ∃ ext ∈ exts, ∃ m,
        probe (fn ++ "." ++ ext) = some m ∧ now - m < ttl.getD 300 := by
  induction exts with
  | nil => simp [screenshotCacheGo]
  | cons ext rest ih =>
    simp only [screenshotCacheGo]
    cases hp : probe (fn ++ "." ++ ext) with
    | none =>
      rw [ih]
      simp [List.exists_mem_cons_iff, hp]
    | some m =>
      have hm : ¬ now < m := Nat.not_lt.mpr (h _ _ hp)
      by_cases ht : 0 < ttl.getD 300
      · simp only [if_pos ht, if_neg hm]
        by_cases hf : now - m < ttl.getD 300
        · simp only [if_pos hf]
          constructor
          · intro _
            exact ⟨ht, ext, List.mem_cons_self _ _, m, hp, hf⟩
          · intro _
            trivial
        · simp only [if_neg hf]
          rw [ih]
          simp only [List.exists_mem_cons_iff, hp, Option.some.injEq]
          constructor
          · rintro ⟨h1, e, he, mm, hmm, hlt⟩
            exact ⟨h1, Or.inr ⟨e, he, mm, hmm, hlt⟩⟩
          · rintro ⟨h1, hcase⟩
            refine ⟨h1, ?_⟩
            rcases hcase with ⟨mm, hmm, hlt⟩ | hr
            · exact absurd (hmm ▸ hlt) hf
            · exact hr
      · simp only [if_neg ht]
        rw [ih]
        simp [ht]

/-- C5 counterexample: the claim says a handler redirects only when
the `ttl` query parameter is present.  The screenshot handler, probing
a filesystem whose `f.png` was modified at second 100, redirects at
`now = 100` although the request carries no `ttl` (the code
substitutes a default of 300 seconds), so the claimed equivalence
fails. -/
theorem c5_screenshot_redirects_without_ttl :
    screenshotCacheAction probeOnePng "f" none 100 = .redirect ∧
    ¬ specRedirectCond true none 100 100 := by
  refine ⟨by decide, ?_⟩
  rintro ⟨-, t, ht, -⟩
  cases ht

/-- C5 amended: the PDF handler redirects exactly under the claimed
condition — blob present, `ttl` present and `now ≤ last_modified +
ttl` — and enqueues otherwise, provided `ttl` is within chrono's
`TimeDelta` range and `last_modified + ttl` within chrono's calendar;
when the blob exists and `last_modified + ttl` exceeds chrono's
maximum, the handler panics instead.  The screenshot handler instead
uses a default of 300 seconds when `ttl` is absent, requires the
effective ttl to be positive, and redirects exactly when some probed
extension has a file with `now - mtime < ttl` (strict). -/
theorem c5_cache_decisions :
    (∀ (is_ex : Bool) (lm now t : Nat), t ≤ timeDeltaMaxSecs →
      lm + t ≤ chronoMaxTimestamp →
      (pdfCacheAction is_ex (some t) lm now = .redirect ↔
        is_ex = true ∧ now ≤ lm + t)) ∧
    (∀ (lm now t : Nat), t ≤ timeDeltaMaxSecs → chronoMaxTimestamp < lm + t →
      pdfCacheAction true (some t) lm now = .panicked) ∧
    (∀ (is_ex : Bool) (lm now : Nat), pdfCacheAction is_ex none lm now = .enqueue) ∧
    (∀ (probe : String → Option Nat) (fn : String) (ttl : Option Nat) (now : Nat),
      (∀ s m, probe s = some m → m ≤ now) →
      (screenshotCacheAction probe fn ttl now = .redirect ↔
        0 < ttl.getD 300 ∧ ∃ ext ∈ (["png", "jpg", "webp"] : List String), ∃ m,
          probe (fn ++ "." ++ ext) = some m ∧ now - m < ttl.getD 300)) := by
  refine ⟨?_, ?_, ?_, ?_⟩
  · intro is_ex lm now t hbound hcal
    cases is_ex with
    | false => simp [pdfCacheAction]
    | true =>
      simp only [pdfCacheAction, if_pos rfl, if_neg (Nat.not_lt.mpr hbound),
        if_neg (Nat.not_lt.mpr hcal)]
      by_cases hfresh : now ≤ lm + t
      · simp [hfresh]
      · simp [hfresh]
  · intro lm now t hbound hover
    simp [pdfCacheAction, Nat.not_lt.mpr hbound, hover]
  · intro is_ex lm now
    cases is_ex <;> simp [pdfCacheAction]
  · intro probe fn ttl now h
    exact screenshotCacheGo_redirect_iff probe fn ttl now _ h

/-- C5 witness: a fresh blob with `ttl=60` makes the PDF handler
redirect, an existing blob with `ttl=10^13` makes it panic, and a
fresh `f.png` with `ttl=200` makes the screenshot handler redirect. -/
theorem c5_cache_decisions_witness :
    pdfCacheAction true (some 60) 100 150 = .redirect ∧
    pdfCacheAction true (some 10000000000000) 100 150 = .panicked ∧
    screenshotCacheAction probeOnePng "f" (some 200) 150 = .redirect := by
  have hprobe : ∀ s m, probeOnePng s = some m → m ≤ 150 := by
    intro s m hm
    by_cases hs : s = "f.png"
    · simp [probeOnePng, hs] at hm
      omega
    · simp [probeOnePng, hs] at hm
  exact ⟨(c5_cache_decisions.1 true 100 150 60 (by decide) (by decide)).mpr
      ⟨rfl, by decide⟩,
    c5_cache_decisions.2.1 100 150 10000000000000 (by decide) (by decide),
    (c5_cache_decisions.2.2.2 probeOnePng "f" (some 200) 150 hprobe).mpr
      ⟨by decide, "png", by decide, 100, by decide, by decide⟩⟩

/-- C6: signature round-trip and expiry, exactly as claimed: a query
produced by `new`/`to_qs` verifies to `Ok(token)` at every second of
`[issued, issued + 3600]`, is the `timeout` (Expired) error from
`issued + 3601` on, and is the `WTF` (NotYetValid) error strictly
before `issued`.  (`expires_in` is the constant 3600 of
`PresignedUrl::new`; the hypothesis excludes 64-bit wrap-around of
`issued + 3600`, which no real clock value approaches.) -/
theorem c6_signature_roundtrip :
    ∀ (path token : String) (issued : Nat), issued + 3600 < M64 →
      (∀ t, issued ≤ t → t ≤ issued + 3600 →
        from_req path (some (PresignedUrl.new path token issued).to_qs) t =
          .ok token) ∧
      (∀ t, issued + 3601 ≤ t →
        from_req path (some (PresignedUrl.new path token issued).to_qs) t =
          .error ⟨"timeout"⟩) ∧
      (∀ t, t < issued →
        from_req path (some (PresignedUrl.new path token issued).to_qs) t =
          .error ⟨"WTF"⟩) := by
  intro path token issued hov
  have hmod : (issued + 3600) % M64 = issued + 3600 := Nat.mod_eq_of_lt hov
  refine ⟨?_, ?_, ?_⟩
  · intro t h1 h2
    simp only [from_req, PresignedUrl.to_qs, PresignedUrl.new, hmod]
    rw [if_neg (by omega), if_neg (by omega)]
    simp
  · intro t hlate
    simp only [from_req, PresignedUrl.to_qs, PresignedUrl.new, hmod]
    rw [if_neg (by omega), if_pos (by omega)]
  · intro t hearly
    simp only [from_req, PresignedUrl.to_qs, PresignedUrl.new]
    rw [if_pos hearly]

/-- C6 witness: a URL signed for `/static/a1/b2.png` at unix second
1700000000 verifies to the token 1800 seconds later, is expired at
second 1700003601, and is not yet valid at second 1699999999. -/
theorem c6_signature_roundtrip_witness :
    from_req "/static/a1/b2.png"
        (some (PresignedUrl.new "/static/a1/b2.png" "tok" 1700000000).to_qs)
        1700001800 = .ok "tok" ∧
    from_req "/static/a1/b2.png"
        (some (PresignedUrl.new "/static/a1/b2.png" "tok" 1700000000).to_qs)
        1700003601 = .error ⟨"timeout"⟩ ∧
    from_req "/static/a1/b2.png"
        (some (PresignedUrl.new "/static/a1/b2.png" "tok" 1700000000).to_qs)
        1699999999 = .error ⟨"WTF"⟩ :=
  have h := c6_signature_roundtrip "/static/a1/b2.png" "tok" 1700000000 (by decide)
  ⟨h.1 1700001800 (by decide) (by decide), h.2.1 1700003601 (by decide),
    h.2.2 1699999999 (by decide)⟩

/-- C7 counterexample: the claim requires the admitted credential to
equal some configured bucket token.  A query forged with the
credential `attacker` — not a configured token — and the self-computed
unkeyed SHA-1 digest as its signature is admitted by the static-route
middleware. -/
theorem c7_any_credential_admitted :
    lfs_handle ["bucket-secret"] "/static/x" (some forgedQs) 1000 = .pass ∧
    "attacker" ∉ ["bucket-secret"] ∧
    forgedQs.x_amz_credential = "attacker" := by
  have hfr : from_req "/static/x" (some forgedQs) 1000 = .ok "attacker" := by
    simp only [from_req, forgedQs]
    rw [if_neg (by decide), if_neg (by decide)]
    simp
  exact ⟨by simp [lfs_handle, hfr], by decide, rfl⟩

/-- C7 amended: a `/static/` request is admitted iff its query parses
as the five presigned parameters, `now` lies in
`[date, (date + expires) mod 2^64]`, and the signature equals the
digest recomputed from the request path and the query's own fields;
the configured bucket tokens are never consulted (the decision is
identical under any token list), and every failing request is answered
401. -/
theorem c7_admission_characterization :
    ∀ (tokens : List String) (path : String) (q : PresignedQs) (now : Nat),
      (lfs_handle tokens path (some q) now = .pass ↔
        ¬ now < q.x_amz_date ∧
        ¬ (q.x_amz_date + q.x_amz_expires) % M64 < now ∧
        (PresignedUrl.mk path q.x_amz_algorithm q.x_amz_credential q.x_amz_date
            q.x_amz_expires).sign = q.x_amz_signature) ∧
      lfs_handle tokens path none now = .unauthorized401 ∧
      lfs_handle tokens path (some q) now = lfs_handle [] path (some q) now := by
  intro tokens path q now
  refine ⟨?_, rfl, rfl⟩
  simp only [lfs_handle, from_req]
  by_cases h1 : now < q.x_amz_date
  · simp [h1]
  · by_cases h2 : (q.x_amz_date + q.x_amz_expires) % M64 < now
    · simp [h1, h2]
    · by_cases h3 :
        (PresignedUrl.mk path q.x_amz_algorithm q.x_amz_credential q.x_amz_date
          q.x_amz_expires).sign = q.x_amz_signature
      · simp [h1, h2, h3]
      · simp [h1, h2, h3]

/-- C8 counterexample: the claim says, with `N = pool_size` screenshot
workers, the PDF workers get ids `N..N+M-1` and a replacement is a PDF
worker whenever `id >= N`.  With `pool_size = 2` the source spawns its
single PDF worker with id `3`, id `2` is spawned by nobody, and a
(hypothetical) replacement for id `2` would be a screenshot worker. -/
theorem c8_pdf_worker_id_mismatch :
    spawnWorkers 2 =
      [(0, .screenshot), (1, .screenshot), (3, .pdf)] ∧
    (2, WorkerClass.pdf) ∉ spawnWorkers 2 ∧
    replaceClass 2 2 = .screenshot := by
  refine ⟨by decide, by decide, rfl⟩

set_option maxRecDepth 100000 in
/-- C8 amended: for every `pool_size` below 255 the supervisor spawns
`pool_size` screenshot workers with ids `0..pool_size-1` and a single
PDF worker with id `pool_size + 1`; those ids are distinct, and the
replacement rule — PDF exactly when `id > pool_size` — assigns every
spawned id its own class.  At the `u8` maximum `pool_size = 255` the
PDF worker id wraps to 0 (in a release build; debug panics), which
collides with screenshot worker 0, so the ids are no longer
distinct. -/
theorem c8_spawn_structure :
    (∀ n : Nat, n < 255 →
      ((spawnWorkers n).map Prod.fst).Nodup ∧
      ((spawnWorkers n).filterMap fun p =>
          if p.2 = WorkerClass.pdf then some p.1 else none) = [n + 1] ∧
      ((spawnWorkers n).filterMap fun p =>
          if p.2 = WorkerClass.screenshot then some p.1 else none) = List.range n ∧
      (∀ p ∈ spawnWorkers n, replaceClass n p.1 = p.2)) ∧
    ((spawnWorkers 255).filterMap fun p =>
        if p.2 = WorkerClass.pdf then some p.1 else none) = [0] ∧
    ¬ ((spawnWorkers 255).map Prod.fst).Nodup := by
  refine ⟨?_, by decide, by decide⟩
  intro n hn
  have h256 : (n + 1) % 256 = n + 1 := Nat.mod_eq_of_lt (by omega)
  refine ⟨?_, ?_, ?_, ?_⟩
  · have hids : (spawnWorkers n).map Prod.fst = List.range n ++ [n + 1] := by
      simp [spawnWorkers, List.map_map, Function.comp_def, h256]
    rw [hids]
    refine List.Nodup.append (List.nodup_range n) (List.nodup_singleton _) ?_
    intro a ha hb
    rw [List.mem_singleton] at hb
    rw [List.mem_range] at ha
    omega
  · simp [spawnWorkers, List.filterMap_append, List.filterMap_map,
      Function.comp_def, h256]
  · simp [spawnWorkers, List.filterMap_append, List.filterMap_map, Function.comp_def]
  · intro p hp
    simp only [spawnWorkers, List.mem_append, List.mem_map, List.mem_range,
      List.mem_singleton] at hp
    rcases hp with ⟨id, hid, rfl⟩ | rfl
    · simp [replaceClass, Nat.not_lt.mpr (Nat.le_of_lt_succ (Nat.lt_succ_of_lt hid))]
    · rw [h256]
      simp [replaceClass]

/-- C8 witness: with `pool_size = 2` the PDF worker `(3, pdf)` is
among the spawned workers and its replacement keeps its class. -/
theorem c8_spawn_structure_witness :
    (3, WorkerClass.pdf) ∈ spawnWorkers 2 ∧
    replaceClass 2 3 = WorkerClass.pdf :=
  ⟨by decide, (c8_spawn_structure.1 2 (by decide)).2.2.2 (3, .pdf) (by decide)⟩

/-- C9: the PDF worker's `loop` has no `break`, so the
`ptx.try_send(id)` after it is unreachable: over every finite schedule
of iteration oracles — including ones where an `unwrap` panics the
task — the worker's trace sends no id on the supervisor's replace
channel (hence the supervisor, which spawns one replacement per id
received, never spawns a replacement PDF worker), and it never reaches
the `tx.send(None)` arm either, since `worker` never returns `Err`:
each iteration with a task either panics before replying or replies
with the URL and keeps looping. -/
theorem c9_pdf_worker_never_signals :
    (∀ os : List PdfIterOracle,
      replaceIdsSent (pdfWorkerRun os).1 = [] ∧
      WorkerEvent.repliedNone ∉ (pdfWorkerRun os).1) ∧
    (∀ g p f : Bool,
      pdfWorkerIteration ⟨true, g, p, f⟩ = ([], .panicked) ∨
      pdfWorkerIteration ⟨true, g, p, f⟩ = ([.repliedSome], .looping)) := by
  constructor
  · intro os
    induction os with
    | nil => exact ⟨rfl, by simp [pdfWorkerRun]⟩
    | cons o os ih =>
      obtain ⟨hid, hnone⟩ := ih
      obtain ⟨ta, gf, pf, fgf⟩ := o
      cases ta <;> cases gf <;> cases pf <;> cases fgf <;>
        simp_all [pdfWorkerRun, pdfWorkerIteration, replaceIdsSent]
  · intro g p f
    cases g <;> cases p <;> cases f <;> simp [pdfWorkerIteration]

/-- C10: the screenshot handler's cache probe stats
`<origin_hash>/<request_hash>.<ext>` relative to the working
directory, while the worker's blob write lands under the bucket root
`./static`, i.e. at `static/<origin_hash>/<request_hash>.<ext>`; for
every request, extension and working directory the two resolved paths
differ, so the probe inspects a location no artifact is ever written
to. -/
theorem c10_probe_path_differs_from_write_path :
    ∀ (cwd ext : String) (r : ScreenshotRequestQSParams),
      resolveCwd cwd (probeRelPath r.filename ext) ≠
        resolveCwd cwd (workerWriteRelPath r.filename ext) := by
  intro cwd ext r h
  have hlen := congrArg String.length h
  have h7 : ("static/" : String).length = 7 := rfl
  simp only [resolveCwd, probeRelPath, workerWriteRelPath, String.length_append,
    h7] at hlen
  omega

end WebShim
